import Mathlib

/-!
Verification development for the Remofile file-transfer service
(`remofile/server.py`, `remofile/client.py`, `remofile/protocol.py`,
`remofile/utils.py`).

The Python source is shallowly embedded: pure helpers become Lean
functions, the server's per-session state machine becomes explicit
state passing over a filesystem modelled as an association list, and
the stateful request processors become functions from (filesystem,
session state, request) to (filesystem, session state, response).
Python integers are `Int`; byte strings are `List Nat`.

Modelling notes, applied uniformly:
 * `pathlib.PurePosixPath` is modelled by its `parts` after parsing:
   an `absolute` flag plus the list of components (the leading root
   marker excluded, single-dot and empty components dropped, `..`
   kept), exactly as pathlib parses a POSIX path string.
 * Filesystem queries (`exists`, `is_file`, `is_dir`) go through the
   operating system, which resolves `..` components; `resolveParts`
   performs that resolution (no symbolic links, as in the tests).
 * Response payloads (the file listing, downloaded chunk bytes, the
   accepted file size) are carried by no claim under study and are
   omitted from the response type; a response is its (type, reason)
   pair exactly as built by the `make_*` helpers of `protocol.py`.
 * `mkstemp` returns a fresh nondeterministic path; it is passed to
   the embedded functions as an explicit `tempPath` argument.
-/

/-- Bytes of a Python `bytes` value. -/
abbrev Bytes := List Nat

/-- A parsed POSIX pure path: whether it is absolute, and its parts
(the root marker excluded), mirroring `pathlib.PurePosixPath`. -/
structure PurePosixPath where
  absolute : Bool
  parts : List String
deriving DecidableEq, Repr

/-- Embeds `normalize_directory` (server.py lines 24-37):
`directory.relative_to(directory.root)`. For an absolute path the
root is the marker and `relative_to` strips it; for a relative path
the root is the empty string and `relative_to` returns the path
unchanged. In both cases the parts survive untouched; in particular
no component, `..` included, is inspected or rejected. -/
def normalize_directory (directory : PurePosixPath) : PurePosixPath :=
  { absolute := false, parts := directory.parts }

/-- Embeds the pathlib `/` operator: if the right operand is absolute
it replaces the left one, otherwise the parts are concatenated. -/
def joinPath (a b : PurePosixPath) : PurePosixPath :=
  if b.absolute then b else { absolute := a.absolute, parts := a.parts ++ b.parts }

/-- The directory every IDLE request processor works on: the request
directory, normalized, combined with the root directory (e.g.
server.py lines 440-445). -/
def resolve_request_directory (root directory : PurePosixPath) : PurePosixPath :=
  joinPath root (normalize_directory directory)

/-- Operating-system resolution of the `..` and `.` components of an
absolute path's parts, as the kernel performs it when the server
touches the path (`..` at the root stays at the root; no symlinks). -/
def resolveParts (ps : List String) : List String :=
  ps.foldl (fun acc p =>
    if p = ".." then acc.dropLast else if p = "." then acc else acc ++ [p]) []

/-- Whether the resolved parts `root` lead to (or equal) the resolved
parts `p`: `p` lives inside the directory `root`. -/
def isBelow : List String → List String → Bool
  | [], _ => true
  | _ :: _, [] => false
  | a :: as, b :: bs => a = b && isBelow as bs

/-- Embeds how pathlib turns a file name into path parts when joined
(`directory / name`): the empty string and the single dot contribute
no part. Every call site in the server joins the name only after
`is_file_name_valid` accepted it, so the name carries no slash and
contributes at most one part. -/
def nameParts (name : String) : List String :=
  if name = "" ∨ name = "." then [] else [name]

/-- A filesystem node: a regular file with its contents, or a
directory. -/
inductive Node
  | file (contents : Bytes)
  | dir
deriving DecidableEq, Repr

/-- The filesystem: resolved absolute path parts to node. -/
abbrev FS := List (List String × Node)

/-- Look a path up in the filesystem. -/
def fsGet (fs : FS) (k : List String) : Option Node :=
  match fs with
  | [] => none
  | (k', n) :: rest => if k' = k then some n else fsGet rest k

/-- Create or overwrite a node. -/
def fsSet (fs : FS) (k : List String) (n : Node) : FS :=
  match fs with
  | [] => [(k, n)]
  | (k', n') :: rest => if k' = k then (k, n) :: rest else (k', n') :: fsSet rest k n

/-- Remove a node. -/
def fsRemove (fs : FS) (k : List String) : FS :=
  match fs with
  | [] => []
  | (k', n') :: rest => if k' = k then fsRemove rest k else (k', n') :: fsRemove rest k

/-- Contents of the regular file at `k` (empty when absent or a
directory; used only where the node is known to be a file). -/
def fileBytes (fs : FS) (k : List String) : Bytes :=
  match fsGet fs k with
  | some (Node.file c) => c
  | _ => []

/-- Append bytes to the regular file at `k` (`temporary_file.write`). -/
def fsAppend (fs : FS) (k : List String) (b : Bytes) : FS :=
  fsSet fs k (Node.file (fileBytes fs k ++ b))

/-- Embeds `pathlib.Path.exists` on a server-side path. -/
def pexists (fs : FS) (p : PurePosixPath) : Bool :=
  (fsGet fs (resolveParts p.parts)).isSome

/-- Embeds `pathlib.Path.is_file`. -/
def is_file (fs : FS) (p : PurePosixPath) : Bool :=
  match fsGet fs (resolveParts p.parts) with
  | some (Node.file _) => true
  | _ => false

/-- Embeds `pathlib.Path.is_dir`. -/
def is_dir (fs : FS) (p : PurePosixPath) : Bool :=
  match fsGet fs (resolveParts p.parts) with
  | some Node.dir => true
  | _ => false

/-- The server-side size of the regular file at `p`, computed by the
seek-to-end-and-tell sequence of `process_download_file_request`. -/
def posixFileSize (fs : FS) (p : PurePosixPath) : Int :=
  (fileBytes fs (resolveParts p.parts)).length

/-- The `Reason` enumeration of protocol.py. -/
inductive Reason
  | FILES_LISTED
  | FILE_CREATED
  | DIRECTORY_CREATED
  | INVALID_FILE_NAME
  | FILE_NOT_FOUND
  | FILE_ALREADY_EXISTS
  | NOT_A_FILE
  | NOT_A_DIRECTORY
  | INCORRECT_FILE_SIZE
  | INCORRECT_CHUNK_SIZE
  | TRANSFER_ACCEPTED
  | CHUNK_RECEIVED
  | CHUNK_SENT
  | TRANSFER_COMPLETED
  | TRANSFER_CANCELLED
  | BAD_REQUEST
  | UNKNOWN_ERROR
deriving DecidableEq, Repr

/-- A protocol response: its `Response` discriminant applied to its
reason (payloads omitted, see the header note). -/
inductive Resp
  | accepted (reason : Reason)
  | refused (reason : Reason)
  | error (reason : Reason)
deriving DecidableEq, Repr

def make_files_listed_response : Resp := Resp.accepted Reason.FILES_LISTED

def make_file_created_response : Resp := Resp.accepted Reason.FILE_CREATED

def make_directory_created_response : Resp := Resp.accepted Reason.DIRECTORY_CREATED

def make_invalid_file_name_response : Resp := Resp.refused Reason.INVALID_FILE_NAME

def make_file_not_found_response : Resp := Resp.refused Reason.FILE_NOT_FOUND

def make_file_already_exists_response : Resp := Resp.refused Reason.FILE_ALREADY_EXISTS

def make_not_a_directory_response : Resp := Resp.refused Reason.NOT_A_DIRECTORY

def make_not_a_file_response : Resp := Resp.refused Reason.NOT_A_FILE

def make_transfer_accepted_response : Resp := Resp.accepted Reason.TRANSFER_ACCEPTED

def make_chunk_received_response : Resp := Resp.accepted Reason.CHUNK_RECEIVED

def make_chunk_sent_response : Resp := Resp.accepted Reason.CHUNK_SENT

def make_transfer_completed_response : Resp := Resp.accepted Reason.TRANSFER_COMPLETED

def make_transfer_cancelled_response : Resp := Resp.accepted Reason.TRANSFER_CANCELLED

def make_incorrect_file_size_response : Resp := Resp.refused Reason.INCORRECT_FILE_SIZE

def make_incorrect_chunk_size_response : Resp := Resp.refused Reason.INCORRECT_CHUNK_SIZE

def make_bad_request_error : Resp := Resp.error Reason.BAD_REQUEST

def make_unknown_error_response : Resp := Resp.error Reason.UNKNOWN_ERROR

/-- The module constants of server.py (lines 18-20). -/
def FILE_SIZE_LIMIT : Int := 4294967296

def MINIMUM_CHUNK_SIZE : Int := 512

def MAXIMUM_CHUNK_SIZE : Int := 8192

/-- The forbidden file-name characters of utils.py (line 8). -/
def invalid_characters : List Char := ['<', '>', ':', '"', '/', '\\', '|', '?', '*']

/-- Embeds `is_file_name_valid` (utils.py lines 10-22): return false
as soon as the name contains one of the forbidden characters
(`name.find(ch) != -1` is character containment), true otherwise.
The source performs no emptiness check. The name's characters are
reached through `String.data`. -/
def is_file_name_valid (name : String) : Bool :=
  invalid_characters.all (fun c => !(name.data.contains c))

/-- The server configuration: `file_size_limit` and the two halves of
`chunk_size_range`. -/
structure SrvConf where
  file_size_limit : Int
  min_chunk_size : Int
  max_chunk_size : Int
deriving DecidableEq, Repr

/-- The UPLOAD-state attributes of the server: the `mkstemp` sink
path, `file_destination`, `chunk_size` and `remaining_bytes`. -/
structure UploadCtx where
  tempPath : List String
  fileDestination : List String
  chunkSize : Int
  remainingBytes : Int
deriving DecidableEq, Repr

/-- The DOWNLOAD-state attributes of the server. -/
structure DownloadCtx where
  sourcePath : List String
  chunkSize : Int
  remainingBytes : Int
deriving DecidableEq, Repr

/-- The `ServerState` enumeration (server.py line 22), the per-state
attributes attached to the active constructor. -/
inductive Mode
  | IDLE
  | UPLOAD (u : UploadCtx)
  | DOWNLOAD (d : DownloadCtx)
  | DELETE
deriving DecidableEq, Repr

/-- The request tuples of protocol.py, one constructor per
discriminant. -/
inductive Req
  | LIST_FILES (directory : PurePosixPath)
  | CREATE_FILE (name : String) (directory : PurePosixPath)
  | MAKE_DIRECTORY (name : String) (directory : PurePosixPath)
  | UPLOAD_FILE (name : String) (directory : PurePosixPath) (file_size chunk_size : Int)
  | SEND_CHUNK (data : Bytes)
  | DOWNLOAD_FILE (name : String) (directory : PurePosixPath) (chunk_size : Int)
  | RECEIVE_CHUNK
  | CANCEL_TRANSFER
  | REMOVE_FILE
deriving DecidableEq, Repr

/-- Embeds `initiate_upload_file` (server.py lines 260-272): `mkstemp`
creates the (empty) temporary sink on disk at the fresh path
`tempPath`, the destination and counters are recorded, and the state
becomes UPLOAD. -/
def initiate_upload_file (fs : FS) (tempPath filePath : List String)
    (file_size chunk_size : Int) : FS × Mode :=
  (fsSet fs tempPath (Node.file []),
   Mode.UPLOAD { tempPath := tempPath, fileDestination := filePath,
                 chunkSize := chunk_size, remainingBytes := file_size })

/-- Embeds `terminate_upload_file` (server.py lines 274-295): the sink
is closed and moved (`shutil.move`) onto the destination, the
attributes are reset and the state returns to IDLE. -/
def terminate_upload_file (fs : FS) (u : UploadCtx) : FS × Mode :=
  (fsSet (fsRemove fs u.tempPath) u.fileDestination (Node.file (fileBytes fs u.tempPath)),
   Mode.IDLE)

/-- Embeds `cancel_upload_file` (server.py lines 297-313): the sink's
handle and descriptor are closed and the attributes reset, but the
source never unlinks the `mkstemp` file, so the filesystem is
returned unchanged; the state goes back to IDLE. -/
def cancel_upload_file (fs : FS) (u : UploadCtx) : FS × Mode :=
  (fs, Mode.IDLE)

/-- Embeds the chunk validity test of `process_upload_file_chunk_request`
(server.py lines 671-677). -/
def chunk_size_ok (u : UploadCtx) (len : Int) : Bool :=
  if len = 0 then false
  else if u.remainingBytes ≤ u.chunkSize then len = u.remainingBytes
  else len = u.chunkSize

/-- Embeds `process_upload_file_chunk_request` (server.py lines
641-702) on a well-formed SEND_CHUNK payload: an invalid chunk size
cancels the upload and replies BAD_REQUEST; a valid chunk is appended
to the sink and `remaining_bytes` decremented; at zero the transfer
terminates with TRANSFER_COMPLETED, otherwise CHUNK_RECEIVED. -/
def process_upload_file_chunk_request (fs : FS) (u : UploadCtx) (chunk : Bytes) :
    FS × Mode × Resp :=
  if chunk_size_ok u chunk.length then
    let fs1 := fsAppend fs u.tempPath chunk
    let u1 : UploadCtx := { u with remainingBytes := u.remainingBytes - chunk.length }
    if u1.remainingBytes = 0 then
      let r := terminate_upload_file fs1 u1
      (r.1, r.2, make_transfer_completed_response)
    else
      (fs1, Mode.UPLOAD u1, make_chunk_received_response)
  else
    let r := cancel_upload_file fs u
    (r.1, r.2, make_bad_request_error)

/-- Embeds `process_upload_file_cancel_request` (server.py lines
704-715). -/
def process_upload_file_cancel_request (fs : FS) (u : UploadCtx) :
    FS × Mode × Resp :=
  let r := cancel_upload_file fs u
  (r.1, r.2, make_transfer_cancelled_response)

/-- Embeds `process_upload_file_requests` (server.py lines 717-744),
the dispatch in the UPLOAD state: SEND_CHUNK and CANCEL_TRANSFER are
processed; any other request type only gets BAD_REQUEST back — the
source performs no cancellation there, the state and the filesystem
are left as they are. -/
def process_upload_file_requests (fs : FS) (u : UploadCtx) (request : Req) :
    FS × Mode × Resp :=
  match request with
  | Req.SEND_CHUNK data => process_upload_file_chunk_request fs u data
  | Req.CANCEL_TRANSFER => process_upload_file_cancel_request fs u
  | _ => (fs, Mode.UPLOAD u, make_bad_request_error)

/-- Embeds `process_list_files_request` (server.py lines 409-473) on a
well-formed request (the listing payload is omitted, see header). -/
def process_list_files_request (root : PurePosixPath) (fs : FS)
    (directory : PurePosixPath) : Resp :=
  let d := resolve_request_directory root directory
  if !(pexists fs d) then make_file_not_found_response
  else if is_file fs d then make_not_a_directory_response
  else make_files_listed_response

/-- Embeds `process_create_file_request` (server.py lines 475-557) on
a well-formed request; returns the response and the filesystem after
the `touch`. -/
def process_create_file_request (root : PurePosixPath) (fs : FS)
    (name : String) (directory : PurePosixPath) : FS × Resp :=
  if !(is_file_name_valid name) then (fs, make_invalid_file_name_response)
  else
    let d := resolve_request_directory root directory
    if !(pexists fs d) then (fs, make_file_not_found_response)
    else if is_file fs d then (fs, make_not_a_directory_response)
    else
      let file_path := joinPath d { absolute := false, parts := nameParts name }
      if pexists fs file_path then (fs, make_file_already_exists_response)
      else (fsSet fs (resolveParts file_path.parts) (Node.file []),
            make_file_created_response)

/-- Embeds `process_make_directory_request` (server.py lines 559-639)
on a well-formed request. -/
def process_make_directory_request (root : PurePosixPath) (fs : FS)
    (name : String) (directory : PurePosixPath) : FS × Resp :=
  if !(is_file_name_valid name) then (fs, make_invalid_file_name_response)
  else
    let d := resolve_request_directory root directory
    if !(pexists fs d) then (fs, make_file_not_found_response)
    else if is_file fs d then (fs, make_not_a_directory_response)
    else
      let directory_path := joinPath d { absolute := false, parts := nameParts name }
      if pexists fs directory_path then (fs, make_file_already_exists_response)
      else (fsSet fs (resolveParts directory_path.parts) Node.dir,
            make_directory_created_response)

/-- Embeds `process_upload_file_request` (server.py lines 746-835) on
a well-formed request. The size check (line 781) refuses
`file_size <= 0 or file_size >= self.file_size_limit`; the chunk
check (line 787) uses the configured `chunk_size_range`. On
acceptance the upload is initiated with the fresh `tempPath`. -/
def process_upload_file_request (conf : SrvConf) (root : PurePosixPath) (fs : FS)
    (name : String) (directory : PurePosixPath) (file_size chunk_size : Int)
    (tempPath : List String) : FS × Mode × Resp :=
  if file_size ≤ 0 ∨ file_size ≥ conf.file_size_limit then
    (fs, Mode.IDLE, make_incorrect_file_size_response)
  else if chunk_size < conf.min_chunk_size ∨ chunk_size > conf.max_chunk_size then
    (fs, Mode.IDLE, make_incorrect_chunk_size_response)
  else if !(is_file_name_valid name) then
    (fs, Mode.IDLE, make_invalid_file_name_response)
  else
    let d := resolve_request_directory root directory
    if !(pexists fs d) ∨ is_file fs d then
      (fs, Mode.IDLE, make_not_a_directory_response)
    else
      let file_path := joinPath d { absolute := false, parts := nameParts name }
      if pexists fs file_path then
        (fs, Mode.IDLE, make_file_already_exists_response)
      else
        let r := initiate_upload_file fs tempPath (resolveParts file_path.parts)
                   file_size chunk_size
        (r.1, r.2, make_transfer_accepted_response)

/-- Embeds `process_download_file_request` (server.py lines 943-1043)
on a well-formed request. The configuration is in scope (the method
reads `self`), but the chunk check at line 981 compares against the
module constants `MINIMUM_CHUNK_SIZE` and `MAXIMUM_CHUNK_SIZE`, not
against `self.chunk_size_range`. -/
def process_download_file_request (conf : SrvConf) (root : PurePosixPath) (fs : FS)
    (name : String) (directory : PurePosixPath) (chunk_size : Int) : Mode × Resp :=
  if chunk_size < MINIMUM_CHUNK_SIZE ∨ chunk_size > MAXIMUM_CHUNK_SIZE then
    (Mode.IDLE, make_incorrect_chunk_size_response)
  else if !(is_file_name_valid name) then
    (Mode.IDLE, make_invalid_file_name_response)
  else
    let d := resolve_request_directory root directory
    if !(pexists fs d) ∨ !(is_dir fs d) then
      (Mode.IDLE, make_not_a_directory_response)
    else
      let file_path := joinPath d { absolute := false, parts := nameParts name }
      if !(pexists fs file_path) then
        (Mode.IDLE, make_file_not_found_response)
      else if !(is_file fs file_path) then
        (Mode.IDLE, make_not_a_file_response)
      else
        (Mode.DOWNLOAD { sourcePath := resolveParts file_path.parts,
                         chunkSize := chunk_size,
                         remainingBytes := posixFileSize fs file_path },
         make_transfer_accepted_response)

/-- Outcome of processing one request: either a response is sent on
the socket, or an uncaught Python exception propagates (no response
is sent and the exception unwinds `process_socket` and `loop`,
terminating the server). -/
inductive Outcome
  | reply (r : Resp)
  | raised (e : String)
deriving DecidableEq, Repr

/-- Embeds `process_remove_file_request` (server.py lines 1045-1051):
the body is `raise NotImplementedError`. -/
def process_remove_file_request : Outcome :=
  Outcome.raised "NotImplementedError"

/-- Result of one `process_socket` step: filesystem, session state,
and the outcome. -/
structure Step where
  fs : FS
  mode : Mode
  out : Outcome
deriving DecidableEq, Repr

/-- Embeds the IDLE branch of `process_socket` (server.py lines
1081-1103): dispatch on the request type; a request type foreign to
the IDLE state gets BAD_REQUEST. -/
def process_socket_idle (conf : SrvConf) (root : PurePosixPath) (fs : FS)
    (tempPath : List String) (request : Req) : Step :=
  match request with
  | Req.LIST_FILES d =>
      { fs := fs, mode := Mode.IDLE,
        out := Outcome.reply (process_list_files_request root fs d) }
  | Req.CREATE_FILE n d =>
      let r := process_create_file_request root fs n d
      { fs := r.1, mode := Mode.IDLE, out := Outcome.reply r.2 }
  | Req.MAKE_DIRECTORY n d =>
      let r := process_make_directory_request root fs n d
      { fs := r.1, mode := Mode.IDLE, out := Outcome.reply r.2 }
  | Req.UPLOAD_FILE n d fsize csize =>
      let r := process_upload_file_request conf root fs n d fsize csize tempPath
      { fs := r.1, mode := r.2.1, out := Outcome.reply r.2.2 }
  | Req.DOWNLOAD_FILE n d csize =>
      let r := process_download_file_request conf root fs n d csize
      { fs := fs, mode := r.1, out := Outcome.reply r.2 }
  | Req.REMOVE_FILE =>
      { fs := fs, mode := Mode.IDLE, out := process_remove_file_request }
  | _ =>
      { fs := fs, mode := Mode.IDLE, out := Outcome.reply make_bad_request_error }

/-- Embeds `process_router` (server.py lines 398-407): a received
multipart frame `(identity, frame, message)` is forwarded to the
dealer exactly when the identity equals the configured token;
otherwise nothing at all is sent. -/
def process_router (token identity frame message : Bytes) :
    Option (Bytes × Bytes × Bytes) :=
  if identity = token then some (identity, frame, message) else none

/-- The router's effect over a whole sequence of received frames: the
frames forwarded to the state machine, in order (one `process_router`
call per loop iteration). -/
def process_router_seq (token : Bytes) (frames : List (Bytes × Bytes × Bytes)) :
    List (Bytes × Bytes × Bytes) :=
  frames.filterMap (fun f => process_router token f.1 f.2.1 f.2.2)

/-- The request a client-side upload issues, plus whether the client
then drives the chunk loop. -/
inductive ClientReq
  | CREATE_FILE (name directory : String)
  | UPLOAD_FILE (name directory : String) (file_size chunk_size : Int)
deriving DecidableEq, Repr

/-- Dispatch decision of the client's `_upload_file`. -/
structure UploadDispatch where
  request : ClientReq
  runsChunkLoop : Bool
deriving DecidableEq, Repr

/-- Embeds the head of `_upload_file` (client.py lines 842-867): the
source is opened and its size computed by seeking to the end; a size
of zero issues CREATE_FILE and returns before the chunk loop; any
other size sends UPLOAD_FILE carrying that size and falls through
into the chunk loop. -/
def client_upload_file (source : Bytes) (name directory : String)
    (chunk_size : Int) : UploadDispatch :=
  if (source.length : Int) = 0 then
    { request := ClientReq.CREATE_FILE name directory, runsChunkLoop := false }
  else
    { request := ClientReq.UPLOAD_FILE name directory (source.length : Int) chunk_size,
      runsChunkLoop := true }

/-! Helper lemmas about the association-list filesystem. -/

theorem fsGet_fsSet_same (fs : FS) (k : List String) (n : Node) :
    fsGet (fsSet fs k n) k = some n := by
  induction fs with
  | nil => simp [fsSet, fsGet]
  | cons e rest ih =>
    unfold fsSet
    by_cases h : e.1 = k <;> simp [h, fsGet, ih]

theorem fsGet_fsSet_ne (fs : FS) (k j : List String) (n : Node) (h : j ≠ k) :
    fsGet (fsSet fs k n) j = fsGet fs j := by
  have hkj : ¬ k = j := fun hh => h hh.symm
  induction fs with
  | nil => simp [fsSet, fsGet, hkj]
  | cons e rest ih =>
    unfold fsSet
    by_cases he : e.1 = k
    · simp [fsGet, he, hkj]
    · simp [fsGet, he, ih]

theorem fsGet_fsRemove_same (fs : FS) (k : List String) :
    fsGet (fsRemove fs k) k = none := by
  induction fs with
  | nil => simp [fsRemove, fsGet]
  | cons e rest ih =>
    unfold fsRemove
    by_cases h : e.1 = k <;> simp [h, fsGet, ih]

theorem fileBytes_fsAppend_same (fs : FS) (k : List String) (b : Bytes) :
    fileBytes (fsAppend fs k b) k = fileBytes fs k ++ b := by
  unfold fsAppend fileBytes
  rw [fsGet_fsSet_same]

/-- The chunk validity test is false exactly on: empty data, data
shorter or longer than `chunk_size` while more than `chunk_size`
bytes remain, or data different from `remaining_bytes` on the final
chunk. -/
theorem chunk_size_ok_false_iff (u : UploadCtx) (len : Int) :
    chunk_size_ok u len = false ↔
      (len = 0 ∨ (u.chunkSize < u.remainingBytes ∧ len ≠ u.chunkSize) ∨
       (u.remainingBytes ≤ u.chunkSize ∧ len ≠ u.remainingBytes)) := by
  unfold chunk_size_ok
  by_cases h0 : len = 0
  · simp [h0]
  · by_cases hle : u.remainingBytes ≤ u.chunkSize
    · rw [if_neg h0, if_pos hle, decide_eq_false_iff_not]
      constructor
      · intro h
        exact Or.inr (Or.inr ⟨hle, h⟩)
      · intro h
        rcases h with h | ⟨h1, _⟩ | ⟨_, h2⟩
        · exact absurd h h0
        · exact absurd hle (by omega)
        · exact h2
    · rw [if_neg h0, if_neg hle, decide_eq_false_iff_not]
      constructor
      · intro h
        exact Or.inr (Or.inl ⟨by omega, h⟩)
      · intro h
        rcases h with h | ⟨_, h1⟩ | ⟨h2, _⟩
        · exact absurd h h0
        · exact h1
        · exact absurd h2 hle

/-- C1: the server does not jail client paths. `normalize_directory`
merely strips the root marker — it runs to completion on `/../x`
without rejecting the `..` component — and rejoining under the root
directory `/srv/data` yields `/srv/data/../x`, which the operating
system resolves to `/srv/x`, outside the root. This contradicts the
claimed path jail (and the server docstring's jail promise). -/
theorem path_jail_escape_on_dotdot :
    normalize_directory { absolute := true, parts := ["..", "x"] } =
      { absolute := false, parts := ["..", "x"] } ∧
    resolveParts (resolve_request_directory
        { absolute := true, parts := ["srv", "data"] }
        { absolute := true, parts := ["..", "x"] }).parts = ["srv", "x"] ∧
    isBelow ["srv", "data"]
        (resolveParts (resolve_request_directory
          { absolute := true, parts := ["srv", "data"] }
          { absolute := true, parts := ["..", "x"] }).parts) = false := by
  decide

/-- C2: cancelling an upload does not delete the temporary sink. In
the concrete scenario an upload of 100 bytes towards
`/srv/data/f` is initiated (the `mkstemp` sink `/tmp/t0` is created)
and then CANCEL_TRANSFER is processed: the state returns to IDLE and
the reply is ACCEPTED/TRANSFER_CANCELLED, the destination does not
exist — but the temporary file is still on disk, because
`cancel_upload_file` closes the handles and never unlinks the file,
despite its own comment saying close and delete. -/
theorem cancel_upload_keeps_temp_file :
    (process_upload_file_cancel_request
        (initiate_upload_file [] ["tmp", "t0"] ["srv", "data", "f"] 100 512).1
        { tempPath := ["tmp", "t0"], fileDestination := ["srv", "data", "f"],
          chunkSize := 512, remainingBytes := 100 }).2.1 = Mode.IDLE ∧
    (process_upload_file_cancel_request
        (initiate_upload_file [] ["tmp", "t0"] ["srv", "data", "f"] 100 512).1
        { tempPath := ["tmp", "t0"], fileDestination := ["srv", "data", "f"],
          chunkSize := 512, remainingBytes := 100 }).2.2 =
      make_transfer_cancelled_response ∧
    fsGet (process_upload_file_cancel_request
        (initiate_upload_file [] ["tmp", "t0"] ["srv", "data", "f"] 100 512).1
        { tempPath := ["tmp", "t0"], fileDestination := ["srv", "data", "f"],
          chunkSize := 512, remainingBytes := 100 }).1 ["srv", "data", "f"] = none ∧
    fsGet (process_upload_file_cancel_request
        (initiate_upload_file [] ["tmp", "t0"] ["srv", "data", "f"] 100 512).1
        { tempPath := ["tmp", "t0"], fileDestination := ["srv", "data", "f"],
          chunkSize := 512, remainingBytes := 100 }).1 ["tmp", "t0"] =
      some (Node.file []) := by
  decide

/-- C3, counterexample: a LIST_FILES request received in the UPLOAD
state is answered with BAD_REQUEST but the upload is NOT cancelled:
the state stays UPLOAD (not IDLE) and the temporary file keeps its
bytes, contradicting the claim that the upload is cancelled with the
temp file deleted. -/
theorem upload_foreign_request_not_cancelled_cx :
    (process_upload_file_requests [(["tmp", "t0"], Node.file [7])]
        { tempPath := ["tmp", "t0"], fileDestination := ["srv", "data", "f"],
          chunkSize := 512, remainingBytes := 100 }
        (Req.LIST_FILES { absolute := true, parts := [] })).2.1 ≠ Mode.IDLE ∧
    fsGet (process_upload_file_requests [(["tmp", "t0"], Node.file [7])]
        { tempPath := ["tmp", "t0"], fileDestination := ["srv", "data", "f"],
          chunkSize := 512, remainingBytes := 100 }
        (Req.LIST_FILES { absolute := true, parts := [] })).1 ["tmp", "t0"] =
      some (Node.file [7]) := by
  decide

/-- C3, amended: in the UPLOAD state, any request whose type is
neither SEND_CHUNK nor CANCEL_TRANSFER is answered with
ERROR/BAD_REQUEST and nothing else happens: the filesystem is
untouched and the server remains in the UPLOAD state with the same
transfer attributes. -/
theorem upload_foreign_request_bad_request_only (fs : FS) (u : UploadCtx)
    (request : Req)
    (hchunk : ∀ data, request ≠ Req.SEND_CHUNK data)
    (hcancel : request ≠ Req.CANCEL_TRANSFER) :
    process_upload_file_requests fs u request =
      (fs, Mode.UPLOAD u, make_bad_request_error) := by
  cases request <;>
    first
      | rfl
      | exact absurd rfl (hchunk _)
      | exact absurd rfl hcancel

/-- Witness for the amended C3 theorem at a concrete input. -/
theorem upload_foreign_request_bad_request_only_witness :
    process_upload_file_requests [(["tmp", "t0"], Node.file [7])]
        { tempPath := ["tmp", "t0"], fileDestination := ["srv", "data", "f"],
          chunkSize := 512, remainingBytes := 100 } Req.RECEIVE_CHUNK =
      ([(["tmp", "t0"], Node.file [7])],
       Mode.UPLOAD { tempPath := ["tmp", "t0"], fileDestination := ["srv", "data", "f"],
                     chunkSize := 512, remainingBytes := 100 },
       make_bad_request_error) :=
  upload_foreign_request_bad_request_only _ _ Req.RECEIVE_CHUNK
    (fun data h => Req.noConfusion h) (fun h => Req.noConfusion h)

/-- C4: the SEND_CHUNK law in the UPLOAD state. A chunk whose length
is zero, or differs from `chunk_size` while more than `chunk_size`
bytes remain, or differs from `remaining_bytes` on the final chunk,
cancels the upload (state back to IDLE, filesystem as the cancel
leaves it) and is answered ERROR/BAD_REQUEST. A valid chunk is
appended to the temporary sink and `remaining_bytes` decremented by
its length; when the count reaches exactly zero, the sink's bytes
land at the destination path, the sink path is gone, the state is
IDLE and the reply is ACCEPTED/TRANSFER_COMPLETED; otherwise the
state stays UPLOAD with the decremented count and the reply is
ACCEPTED/CHUNK_RECEIVED. -/
theorem upload_send_chunk_law (fs : FS) (u : UploadCtx) (chunk : Bytes) :
    ((chunk.length : Int) = 0 ∨
       (u.chunkSize < u.remainingBytes ∧ (chunk.length : Int) ≠ u.chunkSize) ∨
       (u.remainingBytes ≤ u.chunkSize ∧ (chunk.length : Int) ≠ u.remainingBytes) →
      process_upload_file_chunk_request fs u chunk =
        (fs, Mode.IDLE, make_bad_request_error)) ∧
    (¬ ((chunk.length : Int) = 0 ∨
        (u.chunkSize < u.remainingBytes ∧ (chunk.length : Int) ≠ u.chunkSize) ∨
        (u.remainingBytes ≤ u.chunkSize ∧ (chunk.length : Int) ≠ u.remainingBytes)) →
      ((u.remainingBytes = (chunk.length : Int) →
          (process_upload_file_chunk_request fs u chunk).2.1 = Mode.IDLE ∧
          (process_upload_file_chunk_request fs u chunk).2.2 =
            make_transfer_completed_response ∧
          fsGet (process_upload_file_chunk_request fs u chunk).1 u.fileDestination =
            some (Node.file (fileBytes fs u.tempPath ++ chunk)) ∧
          (u.fileDestination ≠ u.tempPath →
             fsGet (process_upload_file_chunk_request fs u chunk).1 u.tempPath =
               none)) ∧
       (u.remainingBytes ≠ (chunk.length : Int) →
          process_upload_file_chunk_request fs u chunk =
            (fsAppend fs u.tempPath chunk,
             Mode.UPLOAD { u with remainingBytes := u.remainingBytes - (chunk.length : Int) },
             make_chunk_received_response)))) := by
  constructor
  · intro h
    have hfalse : chunk_size_ok u chunk.length = false :=
      (chunk_size_ok_false_iff u chunk.length).mpr h
    unfold process_upload_file_chunk_request
    rw [hfalse]
    rfl
  · intro h
    have htrue : chunk_size_ok u chunk.length = true := by
      cases hh : chunk_size_ok u (chunk.length : Int)
      · exact absurd ((chunk_size_ok_false_iff u chunk.length).mp hh) h
      · rfl
    constructor
    · intro heq
      have hzero : u.remainingBytes - (chunk.length : Int) = 0 := by omega
      unfold process_upload_file_chunk_request
      rw [if_pos htrue]
      dsimp only
      rw [if_pos hzero]
      simp only [terminate_upload_file]
      refine ⟨trivial, trivial, ?_, ?_⟩
      · rw [fsGet_fsSet_same, fileBytes_fsAppend_same]
      · intro hne
        rw [fsGet_fsSet_ne _ _ _ _ (fun hx => hne hx.symm), fsGet_fsRemove_same]
    · intro hne
      have hnz : ¬ (u.remainingBytes - (chunk.length : Int) = 0) := by omega
      unfold process_upload_file_chunk_request
      rw [if_pos htrue]
      dsimp only
      rw [if_neg hnz]

/-- Witness for the C4 theorem: a rejected oversized chunk, an
intermediate valid chunk, and a final valid chunk, each at concrete
inputs. -/
theorem upload_send_chunk_law_witness :
    process_upload_file_chunk_request [(["tmp", "t0"], Node.file [])]
        { tempPath := ["tmp", "t0"], fileDestination := ["srv", "data", "f"],
          chunkSize := 2, remainingBytes := 3 } [9, 9, 9] =
      ([(["tmp", "t0"], Node.file [])], Mode.IDLE, make_bad_request_error) ∧
    process_upload_file_chunk_request [(["tmp", "t0"], Node.file [])]
        { tempPath := ["tmp", "t0"], fileDestination := ["srv", "data", "f"],
          chunkSize := 2, remainingBytes := 3 } [1, 2] =
      ([(["tmp", "t0"], Node.file [1, 2])],
       Mode.UPLOAD { tempPath := ["tmp", "t0"], fileDestination := ["srv", "data", "f"],
                     chunkSize := 2, remainingBytes := 1 },
       make_chunk_received_response) ∧
    fsGet (process_upload_file_chunk_request [(["tmp", "t0"], Node.file [1, 2])]
        { tempPath := ["tmp", "t0"], fileDestination := ["srv", "data", "f"],
          chunkSize := 2, remainingBytes := 1 } [3]).1 ["srv", "data", "f"] =
      some (Node.file [1, 2, 3]) := by
  refine ⟨?_, ?_, ?_⟩
  · exact (upload_send_chunk_law [(["tmp", "t0"], Node.file [])]
      { tempPath := ["tmp", "t0"], fileDestination := ["srv", "data", "f"],
        chunkSize := 2, remainingBytes := 3 } [9, 9, 9]).1 (by decide)
  · exact ((upload_send_chunk_law [(["tmp", "t0"], Node.file [])]
      { tempPath := ["tmp", "t0"], fileDestination := ["srv", "data", "f"],
        chunkSize := 2, remainingBytes := 3 } [1, 2]).2 (by decide)).2 (by decide)
  · exact (((upload_send_chunk_law [(["tmp", "t0"], Node.file [1, 2])]
      { tempPath := ["tmp", "t0"], fileDestination := ["srv", "data", "f"],
        chunkSize := 2, remainingBytes := 1 } [3]).2 (by decide)).1 (by decide)).2.2.1

/-- C5: authentication as silence. The router forwards a received
frame exactly when the presented connection identity equals the
configured token byte-for-byte; on any mismatch nothing is forwarded,
and a whole sequence of frames bearing wrong identities produces no
output at all. -/
theorem router_auth_silence (token identity frame message : Bytes) :
    (process_router token identity frame message = some (identity, frame, message) ↔
       identity = token) ∧
    (identity ≠ token → process_router token identity frame message = none) ∧
    (∀ frames : List (Bytes × Bytes × Bytes),
       (∀ f ∈ frames, f.1 ≠ token) → process_router_seq token frames = []) := by
  refine ⟨?_, ?_, ?_⟩
  · unfold process_router
    by_cases h : identity = token
    · simp [h]
    · simp [h]
  · intro h
    unfold process_router
    simp [h]
  · intro frames
    induction frames with
    | nil => intro _; rfl
    | cons f rest ih =>
      intro hall
      have h1 : f.1 ≠ token := hall f (List.mem_cons_self f rest)
      have hrest := ih (fun x hx => hall x (List.mem_cons_of_mem f hx))
      simp only [process_router_seq, List.filterMap_cons] at hrest ⊢
      rw [show process_router token f.1 f.2.1 f.2.2 = none from by
            unfold process_router; simp [h1]]
      exact hrest

/-- Witness for the C5 theorem: a matching identity is forwarded, a
one-byte-off identity is dropped, and a sequence of wrong identities
produces no output. -/
theorem router_auth_silence_witness :
    process_router [1, 2] [1, 2] [3] [4] = some ([1, 2], [3], [4]) ∧
    process_router [1, 2] [1, 3] [3] [4] = none ∧
    process_router_seq [1, 2] [([1, 3], [3], [4]), ([9], [5], [6])] = [] :=
  ⟨(router_auth_silence [1, 2] [1, 2] [3] [4]).1.mpr rfl,
   (router_auth_silence [1, 2] [1, 3] [3] [4]).2.1 (by decide),
   (router_auth_silence [1, 2] [1, 3] [3] [4]).2.2
     [([1, 3], [3], [4]), ([9], [5], [6])] (by decide)⟩

/-- C6, counterexample: with the configured file-size limit 4096, an
UPLOAD_FILE request carrying exactly file_size = 4096 — positive and
not strictly larger than the limit — is refused with
INCORRECT_FILE_SIZE, because the source's check refuses
`file_size >= self.file_size_limit`. -/
theorem upload_size_at_limit_refused_cx :
    (0 : Int) < 4096 ∧ ¬ ((4096 : Int) > 4096) ∧
    (process_upload_file_request
        { file_size_limit := 4096, min_chunk_size := 512, max_chunk_size := 8192 }
        { absolute := true, parts := ["srv", "data"] }
        [(["srv", "data"], Node.dir)]
        "f" { absolute := true, parts := [] } 4096 512 ["tmp", "t0"]).2.2 =
      make_incorrect_file_size_response := by
  decide

/-- C6, amended: an UPLOAD_FILE request is refused with
INCORRECT_FILE_SIZE exactly when file_size ≤ 0 or
file_size ≥ file_size_limit; the accepted sizes are
0 < file_size < file_size_limit, so a file_size equal to the limit is
refused. -/
theorem upload_size_check_law (conf : SrvConf) (root : PurePosixPath) (fs : FS)
    (name : String) (directory : PurePosixPath) (file_size chunk_size : Int)
    (tempPath : List String) :
    (process_upload_file_request conf root fs name directory file_size chunk_size
        tempPath).2.2 = make_incorrect_file_size_response ↔
      (file_size ≤ 0 ∨ file_size ≥ conf.file_size_limit) := by
  unfold process_upload_file_request
  split
  · rename_i h
    exact iff_of_true rfl h
  · rename_i h
    refine iff_of_false ?_ h
    split
    · simp [make_incorrect_chunk_size_response, make_incorrect_file_size_response]
    · split
      · simp [make_invalid_file_name_response, make_incorrect_file_size_response]
      · dsimp only
        split
        · simp [make_not_a_directory_response, make_incorrect_file_size_response]
        · split
          · simp [make_file_already_exists_response, make_incorrect_file_size_response]
          · simp [initiate_upload_file, make_transfer_accepted_response,
                  make_incorrect_file_size_response]

/-- C7: the DOWNLOAD_FILE chunk-size check ignores the configured
chunk-size range and compares against the module constants 512 and
8192. With the configured range (1024, 2048): chunk_size 512 lies
outside the configured range yet is not refused (the transfer is
accepted); and with the configured range (1, 100000): chunk_size 100
lies inside the configured range yet is refused with
INCORRECT_CHUNK_SIZE. -/
theorem download_chunk_check_ignores_conf :
    ((512 : Int) < 1024 ∧
     (process_download_file_request
        { file_size_limit := FILE_SIZE_LIMIT, min_chunk_size := 1024, max_chunk_size := 2048 }
        { absolute := true, parts := ["srv", "data"] }
        [(["srv", "data"], Node.dir), (["srv", "data", "f"], Node.file [1, 2, 3])]
        "f" { absolute := true, parts := [] } 512).2 =
      make_transfer_accepted_response) ∧
    ((1 : Int) ≤ 100 ∧ (100 : Int) ≤ 100000 ∧
     (process_download_file_request
        { file_size_limit := FILE_SIZE_LIMIT, min_chunk_size := 1, max_chunk_size := 100000 }
        { absolute := true, parts := ["srv", "data"] }
        [(["srv", "data"], Node.dir), (["srv", "data", "f"], Node.file [1, 2, 3])]
        "f" { absolute := true, parts := [] } 100).2 =
      make_incorrect_chunk_size_response) := by
  decide

/-- C8, counterexample: the empty name — a name of length zero —
passes `is_file_name_valid`, so the check does not reject empty
names, contrary to the claimed characterization. -/
theorem empty_name_accepted_cx :
    is_file_name_valid "" = true ∧ String.length "" = 0 := by
  decide

/-- C8, amended: the name check accepts a name exactly when it
contains none of the nine forbidden characters; emptiness is not
checked, so a CREATE_FILE request with an empty name is never refused
with INVALID_FILE_NAME. -/
theorem file_name_check_law (name : String) :
    (is_file_name_valid name = true ↔
       ∀ c ∈ invalid_characters, name.data.contains c = false) ∧
    (∀ root : PurePosixPath, ∀ fs : FS, ∀ directory : PurePosixPath,
       (process_create_file_request root fs "" directory).2 ≠
         make_invalid_file_name_response) := by
  constructor
  · simp [is_file_name_valid, List.all_eq_true]
  · intro root fs directory
    unfold process_create_file_request
    rw [show is_file_name_valid "" = true from by decide]
    split
    · rename_i hcond
      simp at hcond
    · dsimp only
      split
      · simp [make_file_not_found_response, make_invalid_file_name_response]
      · split
        · simp [make_not_a_directory_response, make_invalid_file_name_response]
        · split
          · simp [make_file_already_exists_response, make_invalid_file_name_response]
          · simp [make_file_created_response, make_invalid_file_name_response]

/-- Witness for the C8 amended theorem at concrete inputs. -/
theorem file_name_check_law_witness :
    (is_file_name_valid "a" = true ↔
       ∀ c ∈ invalid_characters, (String.data "a").contains c = false) ∧
    (process_create_file_request { absolute := true, parts := ["r"] }
        [(["r"], Node.dir)] "" { absolute := true, parts := [] }).2 ≠
      make_invalid_file_name_response :=
  ⟨(file_name_check_law "a").1,
   (file_name_check_law "a").2 { absolute := true, parts := ["r"] }
     [(["r"], Node.dir)] { absolute := true, parts := [] }⟩

/-- C9, counterexample: a REMOVE_FILE request processed in the IDLE
state does not produce the ERROR/BAD_REQUEST response the claim
promises — no response at all is sent, because the handler raises
NotImplementedError. -/
theorem remove_file_no_reply_cx :
    (process_socket_idle
        { file_size_limit := FILE_SIZE_LIMIT, min_chunk_size := 512, max_chunk_size := 8192 }
        { absolute := true, parts := ["srv", "data"] } [] ["tmp", "t0"]
        Req.REMOVE_FILE).out ≠ Outcome.reply make_bad_request_error := by
  decide

/-- C9, amended: for every configuration, root, filesystem and fresh
temporary path, processing REMOVE_FILE in the IDLE state raises
NotImplementedError: no response is sent, the filesystem is
untouched, and the uncaught exception unwinds the server loop. -/
theorem remove_file_raises (conf : SrvConf) (root : PurePosixPath) (fs : FS)
    (tempPath : List String) :
    process_socket_idle conf root fs tempPath Req.REMOVE_FILE =
      { fs := fs, mode := Mode.IDLE, out := Outcome.raised "NotImplementedError" } :=
  rfl

/-- C10: the client's `_upload_file` issues CREATE_FILE, and skips
the chunk loop, exactly when the computed source size is zero; for a
non-zero source it issues UPLOAD_FILE carrying that size and drives
the chunk loop; consequently an UPLOAD_FILE request sent by the
client always carries a positive file_size. -/
theorem client_upload_zero_size_dispatch (source : Bytes) (name directory : String)
    (chunk_size : Int) :
    (source.length = 0 →
       client_upload_file source name directory chunk_size =
         { request := ClientReq.CREATE_FILE name directory, runsChunkLoop := false }) ∧
    (source.length ≠ 0 →
       client_upload_file source name directory chunk_size =
         { request := ClientReq.UPLOAD_FILE name directory (source.length : Int) chunk_size,
           runsChunkLoop := true }) ∧
    (∀ n d : String, ∀ file_size c : Int, ∀ b : Bool,
       client_upload_file source name directory chunk_size =
         { request := ClientReq.UPLOAD_FILE n d file_size c, runsChunkLoop := b } →
       0 < file_size) := by
  by_cases h : (source.length : Int) = 0
  · refine ⟨fun _ => by unfold client_upload_file; rw [if_pos h], ?_, ?_⟩
    · intro hne
      exfalso
      apply hne
      exact_mod_cast h
    · intro n d file_size c b heq
      unfold client_upload_file at heq
      rw [if_pos h] at heq
      simp at heq
  · refine ⟨fun h0 => absurd (by exact_mod_cast h0) h, ?_, ?_⟩
    · intro _
      unfold client_upload_file
      rw [if_neg h]
    · intro n d file_size c b heq
      unfold client_upload_file at heq
      rw [if_neg h] at heq
      have hfs : file_size = (source.length : Int) := by
        have := congrArg UploadDispatch.request heq
        simp [ClientReq.UPLOAD_FILE.injEq] at this
        exact this.2.2.1.symm
      omega

/-- Witness for the C10 theorem: the empty source dispatches to
CREATE_FILE without the chunk loop, a one-byte source dispatches to
UPLOAD_FILE with size 1 and the chunk loop. -/
theorem client_upload_zero_size_dispatch_witness :
    client_upload_file [] "f" "dir" 512 =
      { request := ClientReq.CREATE_FILE "f" "dir", runsChunkLoop := false } ∧
    client_upload_file [7] "f" "dir" 512 =
      { request := ClientReq.UPLOAD_FILE "f" "dir" 1 512, runsChunkLoop := true } :=
  ⟨(client_upload_zero_size_dispatch [] "f" "dir" 512).1 rfl,
   (client_upload_zero_size_dispatch [7] "f" "dir" 512).2.1 (by decide)⟩
